import Mathlib

/-
Verification of the POSIX ACL layer of pramfs (src/pramfs-1.5.1-3.12/acl.c),
as a shallow embedding in Lean 4.  Buffers are lists of bytes (Nat), machine
integers are Nat/Int, fallible C functions return Except Int (error values are
the negated errno constants, exactly as the C code returns them through
ERR_PTR or as negative int results).
-/

namespace PramAcl

/-- errno constant EPERM (returned negated by the code). -/
def EPERM : Int := 1

/-- errno constant ENOMEM. -/
def ENOMEM : Int := 12

/-- errno constant EACCES. -/
def EACCES : Int := 13

/-- errno constant EINVAL. -/
def EINVAL : Int := 22

/-- errno constant ENODATA. -/
def ENODATA : Int := 61

/-- errno constant EOPNOTSUPP. -/
def EOPNOTSUPP : Int := 95

/-- ACL tag constant from the Linux uapi headers (include/uapi/linux/posix_acl.h). -/
def ACL_USER_OBJ : Nat := 0x01

/-- ACL tag constant ACL_USER (named user entry). -/
def ACL_USER : Nat := 0x02

/-- ACL tag constant ACL_GROUP_OBJ. -/
def ACL_GROUP_OBJ : Nat := 0x04

/-- ACL tag constant ACL_GROUP (named group entry). -/
def ACL_GROUP : Nat := 0x08

/-- ACL tag constant ACL_MASK. -/
def ACL_MASK : Nat := 0x10

/-- ACL tag constant ACL_OTHER. -/
def ACL_OTHER : Nat := 0x20

/-- File-type mask S_IFMT from the mode bits. -/
def S_IFMT : Nat := 0xF000

/-- File-type value for symbolic links. -/
def S_IFLNK : Nat := 0xA000

/-- File-type value for directories. -/
def S_IFDIR : Nat := 0x4000

/-- S_ISLNK predicate on a mode word, as in the kernel headers. -/
def S_ISLNK (m : Nat) : Bool := Nat.land m S_IFMT == S_IFLNK

/-- S_ISDIR predicate on a mode word, as in the kernel headers. -/
def S_ISDIR (m : Nat) : Bool := Nat.land m S_IFMT == S_IFDIR

/-- Modelled from the spec: the on-disk format version constant
PRAM_ACL_VERSION, defined in the missing header acl.h.  The spec fixes a
single supported constant stored big-endian in the 4-byte header; its numeric
value only matters through equality, we use 1. -/
def PRAM_ACL_VERSION : Nat := 1

/-- One in-memory POSIX ACL entry (struct posix_acl_entry): a tag, permission
bits, and the numeric identifier of the principal for named entries (the
kernel stores kuid/kgid obtained through make_kuid/make_kgid over init_user_ns,
which is the identity on the numeric value; for non-named entries the field is
unused and modelled as 0). -/
structure PosixAclEntry where
  e_tag : Nat
  e_perm : Nat
  e_id : Nat
deriving DecidableEq

/-- An in-memory ACL (struct posix_acl): the ordered entries; a_count is the
list length. -/
abbrev PosixAcl := List PosixAclEntry

/-- Read two bytes at offset off as a big-endian 16-bit value (be16_to_cpu of
the stored bytes). -/
def read16be (buf : List Nat) (off : Nat) : Nat :=
  buf.getD off 0 * 256 + buf.getD (off + 1) 0

/-- Read four bytes at offset off as a big-endian 32-bit value (be32_to_cpu). -/
def read32be (buf : List Nat) (off : Nat) : Nat :=
  ((buf.getD off 0 * 256 + buf.getD (off + 1) 0) * 256 + buf.getD (off + 2) 0) * 256
    + buf.getD (off + 3) 0

/-- The two bytes of a 16-bit value in little-endian order (cpu_to_le16). -/
def write16le (x : Nat) : List Nat := [x % 256, x / 256 % 256]

/-- The four bytes of a 32-bit value in big-endian order (cpu_to_be32). -/
def write32be (x : Nat) : List Nat :=
  [x / 16777216 % 256, x / 65536 % 256, x / 256 % 256, x % 256]

/-- Modelled from the spec: sizeof(struct pram_acl_header) from the missing
header acl.h; the spec fixes the header as a single 4-byte version tag. -/
def headerSize : Nat := 4

/-- Modelled from the spec: sizeof(struct pram_acl_entry_short) from the
missing header acl.h; the spec fixes the short record as 2-byte tag plus
2-byte permission bits. -/
def shortSize : Nat := 4

/-- Modelled from the spec: sizeof(struct pram_acl_entry) from the missing
header acl.h; the spec fixes the long record as 2-byte tag, 2-byte permission
bits and a 4-byte identifier. -/
def longSize : Nat := 8

/-- Modelled from the spec: pram_acl_count from the missing header acl.h.
It derives the entry count from the buffer size, on the convention (stated in
the data model: object and mask/other entries first as fixed-size records,
named entries as extended records) that the first up to four records are
short and the remaining ones long; any size that fits no such combination is
invalid (-1).  The caller has already checked size >= headerSize. -/
def pram_acl_count (size : Nat) : Int :=
  let sz := size - headerSize
  if sz < 4 * shortSize then
    if sz % shortSize = 0 then ((sz / shortSize : Nat) : Int) else -1
  else
    if (sz - 4 * shortSize) % longSize = 0 then
      (((sz - 4 * shortSize) / longSize + 4 : Nat) : Int)
    else -1

/-- Modelled from the spec: pram_acl_size from the missing header acl.h, the
exact output size for a given entry count under the same convention as
pram_acl_count (first up to four records short, the rest long). -/
def pram_acl_size (count : Nat) : Nat :=
  if count ≤ 4 then headerSize + count * shortSize
  else headerSize + 4 * shortSize + (count - 4) * longSize

/-- The entry-reading loop of pram_acl_load (acl.c lines 51-84): n records
remain to be read at byte offset off; end-of-buffer is size.  Each record is
bounds-checked against the end before and while it is consumed; tag and
permission bits are read with be16_to_cpu, the identifier of a named entry
with be32_to_cpu; a tag outside the closed set fails; after the last record
the offset must equal the buffer end exactly. -/
def loadEntries (buf : List Nat) (size : Nat) : Nat → Nat → Except Int (List PosixAclEntry)
  | 0, off => if off = size then .ok [] else .error (-EINVAL)
  | n + 1, off =>
    if off + shortSize > size then .error (-EINVAL)
    else
      if read16be buf off = ACL_USER_OBJ ∨ read16be buf off = ACL_GROUP_OBJ
          ∨ read16be buf off = ACL_MASK ∨ read16be buf off = ACL_OTHER then
        (loadEntries buf size n (off + shortSize)).map
          (fun l => ⟨read16be buf off, read16be buf (off + 2), 0⟩ :: l)
      else if read16be buf off = ACL_USER ∨ read16be buf off = ACL_GROUP then
        if off + longSize > size then .error (-EINVAL)
        else
          (loadEntries buf size n (off + longSize)).map
            (fun l => ⟨read16be buf off, read16be buf (off + 2),
                        read32be buf (off + 4)⟩ :: l)
      else .error (-EINVAL)

/-- pram_acl_load (acl.c lines 29-90): decode a raw attribute buffer into an
ACL.  none models a NULL value pointer; the buffer size is the list length.
Returns .ok none for NULL input and for a derived count of 0, an ACL for a
fully valid buffer, and .error (-EINVAL) for every malformed buffer.
Allocation is modelled as always succeeding. -/
def pram_acl_load (value : Option (List Nat)) : Except Int (Option PosixAcl) :=
  match value with
  | none => .ok none
  | some buf =>
    if buf.length < headerSize then .error (-EINVAL)
    else if read32be buf 0 ≠ PRAM_ACL_VERSION then .error (-EINVAL)
    else if pram_acl_count buf.length < 0 then .error (-EINVAL)
    else if pram_acl_count buf.length = 0 then .ok none
    else (loadEntries buf buf.length (pram_acl_count buf.length).toNat headerSize).map some

/-- The record-writing loop of pram_acl_save (acl.c lines 108-133): the bytes
appended for each entry, in input order.  Tag and permission bits are written
with cpu_to_le16, the identifier of a named entry with cpu_to_be32; a tag
outside the closed set fails with -EINVAL. -/
def saveEntries : List PosixAclEntry → Except Int (List Nat)
  | [] => .ok []
  | e :: rest =>
    if e.e_tag = ACL_USER ∨ e.e_tag = ACL_GROUP then
      (saveEntries rest).map
        (fun bs => write16le e.e_tag ++ write16le e.e_perm ++ write32be e.e_id ++ bs)
    else if e.e_tag = ACL_USER_OBJ ∨ e.e_tag = ACL_GROUP_OBJ
        ∨ e.e_tag = ACL_MASK ∨ e.e_tag = ACL_OTHER then
      (saveEntries rest).map (fun bs => write16le e.e_tag ++ write16le e.e_perm ++ bs)
    else .error (-EINVAL)

/-- pram_acl_save (acl.c lines 95-139): encode an ACL into a buffer.  Returns
the written bytes (header with the version tag in big-endian, then one record
per entry) together with the reported size pram_acl_size(a_count), exactly as
the C function returns the buffer and stores the size through its out
parameter.  Allocation is modelled as always succeeding. -/
def pram_acl_save (acl : PosixAcl) : Except Int (List Nat × Nat) :=
  (saveEntries acl).map
    (fun body => (write32be PRAM_ACL_VERSION ++ body, pram_acl_size acl.length))

/-- Classification of the failure modes of the record-reading loop of
pram_acl_load, used to state the error-handling claims independently of the
loop itself: a record whose bounds-checked extent exceeds the buffer end
(overrun), a tag outside the closed set (badTag), and unconsumed bytes after
the last declared record (trailing). -/
inductive WalkOutcome where
  | clean
  | overrun
  | badTag
  | trailing
deriving DecidableEq

/-- The specification-side walk over the declared records of a buffer: it
performs the same sequential consumption as the load loop but records only
which of the failure conditions (if any) is hit. -/
def walkCheck (buf : List Nat) (size : Nat) : Nat → Nat → WalkOutcome
  | 0, off => if off = size then .clean else .trailing
  | n + 1, off =>
    if off + shortSize > size then .overrun
    else
      if read16be buf off = ACL_USER_OBJ ∨ read16be buf off = ACL_GROUP_OBJ
          ∨ read16be buf off = ACL_MASK ∨ read16be buf off = ACL_OTHER then
        walkCheck buf size n (off + shortSize)
      else if read16be buf off = ACL_USER ∨ read16be buf off = ACL_GROUP then
        if off + longSize > size then .overrun
        else walkCheck buf size n (off + longSize)
      else .badTag

/-- Modelled from the spec: the Equivalence Engine fold over the entries
(the kernel collaborator posix_acl_equiv_mode is not part of src/).  It
accumulates the low nine mode bits contributed by the owning-user (shifted to
the owner triple), owning-group and mask (group triple) and other entries,
and reports whether the ACL carries information beyond mode bits, which per
the spec happens exactly when a named-user or named-group entry is present;
a tag outside the closed set is a failure (none). -/
def equivModeFold : PosixAcl → Option (Nat × Bool)
  | [] => some (0, false)
  | e :: rest =>
    match equivModeFold rest with
    | none => none
    | some (m, ne) =>
      if e.e_tag = ACL_USER_OBJ then some (Nat.lor (e.e_perm % 8 * 64) m, ne)
      else if e.e_tag = ACL_GROUP_OBJ then some (Nat.lor (e.e_perm % 8 * 8) m, ne)
      else if e.e_tag = ACL_MASK then some (Nat.lor (e.e_perm % 8 * 8) m, ne)
      else if e.e_tag = ACL_OTHER then some (Nat.lor (e.e_perm % 8) m, ne)
      else if e.e_tag = ACL_USER ∨ e.e_tag = ACL_GROUP then some (m, true)
      else none

/-- Modelled from the spec: acl_equiv_mode / acl_to_mode_update of the
Equivalence Engine (the kernel collaborator posix_acl_equiv_mode).  On
success it returns the inode mode with its low nine bits replaced by the bits
folded from the ACL, together with the is-extended verdict (false means the
ACL is trivial, equivalent to plain mode bits); a tag outside the closed set
yields -EINVAL and leaves the mode unwritten. -/
def posix_acl_equiv_mode (acl : PosixAcl) (mode : Nat) : Except Int (Nat × Bool) :=
  match equivModeFold acl with
  | none => .error (-EINVAL)
  | some (m, ne) => .ok (mode / 512 * 512 + m, ne)

/-- The two ACL types keyed per inode (ACL_TYPE_ACCESS / ACL_TYPE_DEFAULT). -/
inductive AclType where
  | ACL_TYPE_ACCESS
  | ACL_TYPE_DEFAULT
deriving DecidableEq

/-- The three-state per-inode ACL cache slot: not yet looked up
(ACL_NOT_CACHED), or a cached outcome which is either absent (NULL) or a
validated ACL. -/
inductive CacheState where
  | notCached
  | cached (acl : Option PosixAcl)
deriving DecidableEq

/-- The inode fields the ACL layer touches: the mode word, the change
timestamp, and the dirty mark set by mark_inode_dirty. -/
structure Inode where
  i_mode : Nat
  i_ctime : Nat
  dirty : Bool
deriving DecidableEq

/-- The state an ACL operation sees: the per-filesystem feature flag
test_opt(sb, POSIX_ACL), the ambient clock (CURRENT_TIME_SEC), the inode, the
two slots of the external attribute store (none = no such attribute), and the
two per-inode cache slots. -/
structure FsState where
  aclEnabled : Bool
  now : Nat
  inode : Inode
  xattrAccess : Option (List Nat)
  xattrDefault : Option (List Nat)
  cacheAccess : CacheState
  cacheDefault : CacheState
deriving DecidableEq

/-- The cache slot selected by an ACL type. -/
def cacheOf (st : FsState) : AclType → CacheState
  | .ACL_TYPE_ACCESS => st.cacheAccess
  | .ACL_TYPE_DEFAULT => st.cacheDefault

/-- set_cached_acl: update the cache slot of the given type. -/
def setCacheSt (st : FsState) : AclType → CacheState → FsState
  | .ACL_TYPE_ACCESS, c => { st with cacheAccess := c }
  | .ACL_TYPE_DEFAULT, c => { st with cacheDefault := c }

/-- The attribute-store slot selected by an ACL type (the name_index keys
PRAM_XATTR_INDEX_POSIX_ACL_ACCESS / _DEFAULT). -/
def xattrOf (st : FsState) : AclType → Option (List Nat)
  | .ACL_TYPE_ACCESS => st.xattrAccess
  | .ACL_TYPE_DEFAULT => st.xattrDefault

/-- pram_xattr_set on the store slot of the given type: a none value deletes
the attribute, a some value replaces it; the external store is modelled as
always succeeding (store errors are out of scope of the claims). -/
def xattrWrite (st : FsState) : AclType → Option (List Nat) → FsState
  | .ACL_TYPE_ACCESS, v => { st with xattrAccess := v }
  | .ACL_TYPE_DEFAULT, v => { st with xattrDefault := v }

/-- The outcome of pram_get_acl: the returned pointer (ok none = NULL,
ok some = an ACL, error = ERR_PTR), the state after the call, and how many
calls were issued to the external attribute store pram_xattr_get. -/
structure GetResult where
  acl : Except Int (Option PosixAcl)
  st : FsState
  storeCalls : Nat

/-- pram_get_acl (acl.c lines 144-187).  Feature disabled returns NULL at
once; a cache hit returns the cached outcome with no store call; on a miss the
store is probed for the size (one call), -ENODATA maps to NULL which is
cached, a zero-size attribute likewise ends as NULL and is cached, and a
non-empty attribute is read (second call) and decoded, the decoded outcome
being cached only when it is not an error. -/
def pram_get_acl (st : FsState) (ty : AclType) : GetResult :=
  if st.aclEnabled = false then ⟨.ok none, st, 0⟩
  else
    match cacheOf st ty with
    | .cached a => ⟨.ok a, st, 0⟩
    | .notCached =>
      match xattrOf st ty with
      | none => ⟨.ok none, setCacheSt st ty (.cached none), 1⟩
      | some bytes =>
        if bytes.length = 0 then ⟨.ok none, setCacheSt st ty (.cached none), 1⟩
        else
          match pram_acl_load (some bytes) with
          | .ok a => ⟨.ok a, setCacheSt st ty (.cached a), 2⟩
          | .error e => ⟨.error e, st, 2⟩

/-- The tail of pram_set_acl (acl.c lines 227-238): encode the remaining ACL
when one remains (an encode failure propagates with no state change), write or
delete the attribute through the store, and on success cache exactly what was
written.  The stored bytes are the first size bytes of the encoded buffer
(the C buffer is allocated large enough; bytes past the written records are
modelled as 0). -/
def aclStorePhase (st : FsState) (ty : AclType) (acl : Option PosixAcl) : Int × FsState :=
  match acl with
  | none => (0, setCacheSt (xattrWrite st ty none) ty (.cached none))
  | some a =>
    match pram_acl_save a with
    | .error e => (e, st)
    | .ok (buf, size) =>
      (0, setCacheSt (xattrWrite st ty (some ((buf ++ List.replicate size 0).take size)))
            ty (.cached (some a)))

/-- pram_set_acl (acl.c lines 192-239).  Symlinks are rejected first with
-EOPNOTSUPP; a disabled feature is a silent no-op success; for the access type
a non-NULL ACL is folded into the inode mode (ctime updated, inode marked
dirty) and dropped to NULL when trivial; for the default type a non-directory
gets -EACCES for a non-NULL ACL and a no-op success for NULL; any other type
is -EINVAL by construction of AclType. -/
def pram_set_acl (st : FsState) (ty : AclType) (acl : Option PosixAcl) : Int × FsState :=
  if S_ISLNK st.inode.i_mode then (-EOPNOTSUPP, st)
  else if st.aclEnabled = false then (0, st)
  else
    match ty with
    | .ACL_TYPE_ACCESS =>
      match acl with
      | some a =>
        match posix_acl_equiv_mode a st.inode.i_mode with
        | .error e => (e, st)
        | .ok (m, ne) =>
          aclStorePhase
            { st with inode := { st.inode with i_mode := m, i_ctime := st.now, dirty := true } }
            .ACL_TYPE_ACCESS (if ne then some a else none)
      | none => aclStorePhase st .ACL_TYPE_ACCESS none
    | .ACL_TYPE_DEFAULT =>
      if S_ISDIR st.inode.i_mode = false then (if acl.isSome then -EACCES else 0, st)
      else aclStorePhase st .ACL_TYPE_DEFAULT acl

/-- Modelled from the spec: validate(acl) of the Equivalence Engine (the
kernel collaborator posix_acl_valid).  Structural POSIX well-formedness:
exactly one owning-user, owning-group and other entry, at most one mask, all
tags in the closed set, and a mask entry present whenever a named entry
exists.  Returns 0 when valid, -EINVAL otherwise. -/
def posix_acl_valid (acl : PosixAcl) : Int :=
  if (acl.map (fun e => e.e_tag)).count ACL_USER_OBJ = 1
      ∧ (acl.map (fun e => e.e_tag)).count ACL_GROUP_OBJ = 1
      ∧ (acl.map (fun e => e.e_tag)).count ACL_OTHER = 1
      ∧ (acl.map (fun e => e.e_tag)).count ACL_MASK ≤ 1
      ∧ (∀ e ∈ acl, e.e_tag = ACL_USER_OBJ ∨ e.e_tag = ACL_USER
          ∨ e.e_tag = ACL_GROUP_OBJ ∨ e.e_tag = ACL_GROUP
          ∨ e.e_tag = ACL_MASK ∨ e.e_tag = ACL_OTHER)
      ∧ ((∃ e ∈ acl, e.e_tag = ACL_USER ∨ e.e_tag = ACL_GROUP)
          → (acl.map (fun e => e.e_tag)).count ACL_MASK = 1) then 0
  else -EINVAL

/-- pram_xattr_set_acl (acl.c lines 368-399).  The value parameter carries the
outcome of the external wire parser posix_acl_from_xattr applied to the
caller-supplied buffer (none models a NULL value pointer, meaning remove the
ACL); the parser itself is an external kernel collaborator and is abstracted
to its outcome.  A non-empty attribute name is rejected with -EINVAL, a
disabled feature with -EOPNOTSUPP, a caller that is neither owner nor
privileged with -EPERM; a parsed ACL is validated before pram_set_acl runs. -/
def pram_xattr_set_acl (st : FsState) (isOwner : Bool) (name : String)
    (value : Option (Except Int (Option PosixAcl))) (ty : AclType) : Int × FsState :=
  if name ≠ "" then (-EINVAL, st)
  else if st.aclEnabled = false then (-EOPNOTSUPP, st)
  else if isOwner = false then (-EPERM, st)
  else
    match value with
    | none => pram_set_acl st ty none
    | some parsed =>
      match parsed with
      | .error e => (e, st)
      | .ok none => pram_set_acl st ty none
      | .ok (some a) =>
        if posix_acl_valid a = 0 then pram_set_acl st ty (some a)
        else (posix_acl_valid a, st)

/-- A record walk that does not end clean makes the load loop fail with
-EINVAL: the loop and the walk consume records in lockstep, so an overrun, a
tag outside the closed set, or leftover bytes after the last record each hit
the corresponding failure exit of the loop. -/
theorem loadEntries_error_of_walk (buf : List Nat) (size : Nat) :
    ∀ n off, walkCheck buf size n off ≠ .clean →
      loadEntries buf size n off = .error (-EINVAL) := by
  intro n
  induction n with
  | zero =>
    intro off h
    rw [walkCheck] at h
    rw [loadEntries]
    by_cases hoff : off = size
    · exact absurd (if_pos hoff) h
    · rw [if_neg hoff]
  | succ n ih =>
    intro off h
    rw [walkCheck] at h
    rw [loadEntries]
    by_cases h1 : off + shortSize > size
    · rw [if_pos h1]
    · rw [if_neg h1] at h ⊢
      by_cases h2 : read16be buf off = ACL_USER_OBJ ∨ read16be buf off = ACL_GROUP_OBJ
          ∨ read16be buf off = ACL_MASK ∨ read16be buf off = ACL_OTHER
      · rw [if_pos h2] at h ⊢
        rw [ih (off + shortSize) h]
        rfl
      · rw [if_neg h2] at h ⊢
        by_cases h3 : read16be buf off = ACL_USER ∨ read16be buf off = ACL_GROUP
        · rw [if_pos h3] at h ⊢
          by_cases h4 : off + longSize > size
          · rw [if_pos h4]
          · rw [if_neg h4] at h ⊢
            rw [ih (off + longSize) h]
            rfl
        · rw [if_neg h3]

/-- A successful run of the load loop returns exactly as many entries as were
requested. -/
theorem loadEntries_length (buf : List Nat) (size : Nat) :
    ∀ n off l, loadEntries buf size n off = .ok l → l.length = n := by
  intro n
  induction n with
  | zero =>
    intro off l h
    rw [loadEntries] at h
    by_cases hoff : off = size
    · rw [if_pos hoff] at h
      cases h
      rfl
    · rw [if_neg hoff] at h
      cases h
  | succ n ih =>
    intro off l h
    rw [loadEntries] at h
    by_cases h1 : off + shortSize > size
    · rw [if_pos h1] at h; cases h
    · rw [if_neg h1] at h
      by_cases h2 : read16be buf off = ACL_USER_OBJ ∨ read16be buf off = ACL_GROUP_OBJ
          ∨ read16be buf off = ACL_MASK ∨ read16be buf off = ACL_OTHER
      · rw [if_pos h2] at h
        cases hrec : loadEntries buf size n (off + shortSize) with
        | error e => rw [hrec] at h; cases h
        | ok l0 =>
          rw [hrec] at h
          cases h
          simp [ih (off + shortSize) l0 hrec]
      · rw [if_neg h2] at h
        by_cases h3 : read16be buf off = ACL_USER ∨ read16be buf off = ACL_GROUP
        · rw [if_pos h3] at h
          by_cases h4 : off + longSize > size
          · rw [if_pos h4] at h; cases h
          · rw [if_neg h4] at h
            cases hrec : loadEntries buf size n (off + longSize) with
            | error e => rw [hrec] at h; cases h
            | ok l0 =>
              rw [hrec] at h
              cases h
              simp [ih (off + longSize) l0 hrec]
        · rw [if_neg h3] at h; cases h

/-- C1 (code bug evidence): decoding the buffer produced by encoding does not
round-trip.  For the one-entry ACL with tag ACL_OTHER and permission 4,
pram_acl_save writes the record bytes [32, 0, 4, 0] (tag and permission in
little-endian, cpu_to_le16), but pram_acl_load reads the tag with be16_to_cpu
and sees 0x2000, which is outside the closed tag set, so the load of the
saved buffer is ERR_PTR(-EINVAL) instead of the original entries. -/
theorem C1_roundtrip_breaks :
    pram_acl_save [⟨ACL_OTHER, 4, 0⟩] = .ok ([0, 0, 0, 1, 32, 0, 4, 0], 8) ∧
    pram_acl_load (some [0, 0, 0, 1, 32, 0, 4, 0]) = .error (-EINVAL) ∧
    Except.error (-EINVAL) ≠
      (Except.ok (some [(⟨ACL_OTHER, 4, 0⟩ : PosixAclEntry)]) : Except Int (Option PosixAcl)) :=
  ⟨rfl, rfl, fun h => Except.noConfusion h⟩

/-- C2: a non-null buffer shorter than the 4-byte header decodes to
ERR_PTR(-EINVAL), and so does every buffer of at least header size whose
big-endian version tag differs from the supported constant; in neither case
is a partial ACL returned. -/
theorem C2_short_or_bad_version (buf : List Nat) :
    (buf.length < headerSize → pram_acl_load (some buf) = .error (-EINVAL)) ∧
    (headerSize ≤ buf.length → read32be buf 0 ≠ PRAM_ACL_VERSION →
      pram_acl_load (some buf) = .error (-EINVAL)) := by
  constructor
  · intro h
    simp only [pram_acl_load]
    rw [if_pos h]
  · intro h1 h2
    simp only [pram_acl_load]
    rw [if_neg (not_lt.mpr h1), if_pos h2]

/-- C2 witness: the one-byte buffer [9] is shorter than the header, and the
buffer [0, 0, 0, 2] carries version 2 instead of the supported constant 1;
both decode to ERR_PTR(-EINVAL). -/
theorem C2_witness :
    pram_acl_load (some [9]) = .error (-EINVAL) ∧
    pram_acl_load (some [0, 0, 0, 2]) = .error (-EINVAL) :=
  ⟨(C2_short_or_bad_version [9]).1 (by decide),
   (C2_short_or_bad_version [0, 0, 0, 2]).2 (by decide) (by decide)⟩

/-- C3: for a buffer with a valid header and a positive derived entry count,
if the record walk does not end clean — a record extent exceeds the buffer
end, a tag lies outside the closed set, or unconsumed bytes remain after the
declared records — then the decode is ERR_PTR(-EINVAL), not an ACL. -/
theorem C3_malformed_records (buf : List Nat)
    (h1 : headerSize ≤ buf.length)
    (h2 : read32be buf 0 = PRAM_ACL_VERSION)
    (h3 : 0 < pram_acl_count buf.length)
    (h4 : walkCheck buf buf.length (pram_acl_count buf.length).toNat headerSize ≠ .clean) :
    pram_acl_load (some buf) = .error (-EINVAL) := by
  simp only [pram_acl_load]
  rw [if_neg (not_lt.mpr h1), if_neg (by simp [h2]), if_neg (not_lt.mpr (le_of_lt h3)),
    if_neg (by omega), loadEntries_error_of_walk buf buf.length _ _ h4]
  rfl

/-- C3 witness: the buffer [0, 0, 0, 1, 0, 0, 0, 0] has a valid header,
derived count 1, and its single record carries tag 0, outside the closed set;
the decode is ERR_PTR(-EINVAL). -/
theorem C3_witness :
    pram_acl_load (some [0, 0, 0, 1, 0, 0, 0, 0]) = .error (-EINVAL) :=
  C3_malformed_records [0, 0, 0, 1, 0, 0, 0, 0] (by decide) (by decide) (by decide) (by decide)

/-- C4 counterexample: a non-null empty buffer does not decode to Absent; it
is shorter than the header and decodes to ERR_PTR(-EINVAL), refuting the part
of the claim that says empty input yields Absent rather than an error. -/
theorem C4_empty_buffer_errors :
    pram_acl_load (some ([] : List Nat)) = .error (-EINVAL) ∧
    (Except.error (-EINVAL) : Except Int (Option PosixAcl)) ≠ .ok none :=
  ⟨rfl, fun h => Except.noConfusion h⟩

/-- C4 (amended): null input decodes to Absent (NULL), not an error; a buffer
with a valid header whose derived entry count is 0 also decodes to Absent;
and a successful decode never returns an ACL with zero entries.  (A non-null
empty buffer is shorter than the header and is a format error instead.) -/
theorem C4_absent_semantics :
    pram_acl_load none = .ok none ∧
    (∀ buf : List Nat, headerSize ≤ buf.length → read32be buf 0 = PRAM_ACL_VERSION →
      pram_acl_count buf.length = 0 → pram_acl_load (some buf) = .ok none) ∧
    (∀ (buf : List Nat) (acl : PosixAcl),
      pram_acl_load (some buf) = .ok (some acl) → acl ≠ []) := by
  refine ⟨rfl, ?_, ?_⟩
  · intro buf h1 h2 h3
    simp only [pram_acl_load]
    rw [if_neg (not_lt.mpr h1), if_neg (by simp [h2]), if_neg (by omega), if_pos h3]
  · intro buf acl h
    simp only [pram_acl_load] at h
    by_cases h1 : buf.length < headerSize
    · rw [if_pos h1] at h; cases h
    · rw [if_neg h1] at h
      by_cases h2 : read32be buf 0 ≠ PRAM_ACL_VERSION
      · rw [if_pos h2] at h; cases h
      · rw [if_neg h2] at h
        by_cases h3 : pram_acl_count buf.length < 0
        · rw [if_pos h3] at h; cases h
        · rw [if_neg h3] at h
          by_cases h4 : pram_acl_count buf.length = 0
          · rw [if_pos h4] at h; simp at h
          · rw [if_neg h4] at h
            cases hrec : loadEntries buf buf.length
                (pram_acl_count buf.length).toNat headerSize with
            | error e => rw [hrec] at h; cases h
            | ok l =>
              have hl := loadEntries_length buf buf.length _ _ l hrec
              rw [hrec] at h
              simp only [Except.map, Except.ok.injEq, Option.some.injEq] at h
              subst h
              intro hnil
              rw [hnil] at hl
              simp at hl
              omega

/-- C4 witness: the null input and the count-zero buffer [0, 0, 0, 1] both
decode to Absent. -/
theorem C4_witness :
    pram_acl_load none = .ok none ∧ pram_acl_load (some [0, 0, 0, 1]) = .ok none :=
  ⟨C4_absent_semantics.1,
   C4_absent_semantics.2.1 [0, 0, 0, 1] (by decide) (by decide) (by decide)⟩

/-- The cache slot just written is what a later read of the same type sees. -/
theorem cacheOf_setCacheSt (st : FsState) (ty : AclType) (c : CacheState) :
    cacheOf (setCacheSt st ty c) ty = c := by
  cases ty <;> rfl

/-- Writing a cache slot leaves the feature flag unchanged. -/
theorem aclEnabled_setCacheSt (st : FsState) (ty : AclType) (c : CacheState) :
    (setCacheSt st ty c).aclEnabled = st.aclEnabled := by
  cases ty <;> rfl

/-- A regular-file inode (mode 0o100644) on a filesystem with ACL support
enabled, no stored attributes and cold caches; the base state for concrete
witnesses. -/
def baseState : FsState :=
  { aclEnabled := true, now := 7,
    inode := { i_mode := 0x81A4, i_ctime := 0, dirty := false },
    xattrAccess := none, xattrDefault := none,
    cacheAccess := .notCached, cacheDefault := .notCached }

/-- C5: setting an access ACL whose entries are all owning-user, owning-group,
mask or other and whose folded bits equal the low nine mode bits (a trivial
ACL, h4) on a non-symlink inode with ACL support enabled succeeds with the
inode mode preserved, the ctime updated and the inode marked dirty, the
stored access attribute removed, Absent cached — and an immediately following
get of the access ACL returns Absent from the cache with no store call. -/
theorem C5_trivial_access_set (st : FsState) (a : PosixAcl)
    (h1 : st.aclEnabled = true)
    (h2 : S_ISLNK st.inode.i_mode = false)
    (_h3 : ∀ e ∈ a, e.e_tag = ACL_USER_OBJ ∨ e.e_tag = ACL_GROUP_OBJ
        ∨ e.e_tag = ACL_MASK ∨ e.e_tag = ACL_OTHER)
    (h4 : equivModeFold a = some (st.inode.i_mode % 512, false)) :
    pram_set_acl st .ACL_TYPE_ACCESS (some a) =
      (0, { st with
              inode := { i_mode := st.inode.i_mode, i_ctime := st.now, dirty := true },
              xattrAccess := none,
              cacheAccess := .cached none }) ∧
    (pram_get_acl (pram_set_acl st .ACL_TYPE_ACCESS (some a)).2 .ACL_TYPE_ACCESS).acl
      = .ok none ∧
    (pram_get_acl (pram_set_acl st .ACL_TYPE_ACCESS (some a)).2 .ACL_TYPE_ACCESS).storeCalls
      = 0 ∧
    (pram_get_acl (pram_set_acl st .ACL_TYPE_ACCESS (some a)).2 .ACL_TYPE_ACCESS).st
      = (pram_set_acl st .ACL_TYPE_ACCESS (some a)).2 := by
  have hmode : st.inode.i_mode / 512 * 512 + st.inode.i_mode % 512 = st.inode.i_mode := by
    omega
  have hset : pram_set_acl st .ACL_TYPE_ACCESS (some a) =
      (0, { st with
              inode := { i_mode := st.inode.i_mode, i_ctime := st.now, dirty := true },
              xattrAccess := none,
              cacheAccess := .cached none }) := by
    simp [pram_set_acl, h1, h2, posix_acl_equiv_mode, h4, hmode, aclStorePhase,
      xattrWrite, setCacheSt]
  rw [hset]
  refine ⟨rfl, ?_, ?_, ?_⟩ <;> simp [pram_get_acl, cacheOf, h1]

/-- C5 witness: on the base state (regular file, mode 0o100644, ACL support
enabled) the trivial ACL [owner rw-, group r--, other r--] is folded and not
persisted, and the following get of the access ACL is Absent. -/
theorem C5_witness :
    pram_set_acl baseState .ACL_TYPE_ACCESS
        (some [⟨ACL_USER_OBJ, 6, 0⟩, ⟨ACL_GROUP_OBJ, 4, 0⟩, ⟨ACL_OTHER, 4, 0⟩]) =
      (0, { baseState with
              inode := { i_mode := 0x81A4, i_ctime := 7, dirty := true },
              xattrAccess := none,
              cacheAccess := .cached none }) ∧
    (pram_get_acl (pram_set_acl baseState .ACL_TYPE_ACCESS
        (some [⟨ACL_USER_OBJ, 6, 0⟩, ⟨ACL_GROUP_OBJ, 4, 0⟩, ⟨ACL_OTHER, 4, 0⟩])).2
        .ACL_TYPE_ACCESS).acl = .ok none :=
  ⟨(C5_trivial_access_set baseState _ rfl rfl (by decide) (by decide)).1,
   (C5_trivial_access_set baseState _ rfl rfl (by decide) (by decide)).2.1⟩

/-- C6: with ACL support enabled, setting a default-type ACL on an inode that
is neither a symlink nor a directory fails with -EACCES and no state change
when the requested value is a non-absent ACL, and succeeds as a no-op when
the requested value is Absent. -/
theorem C6_default_on_nondirectory (st : FsState) (a : PosixAcl)
    (h1 : st.aclEnabled = true)
    (h2 : S_ISLNK st.inode.i_mode = false)
    (h3 : S_ISDIR st.inode.i_mode = false) :
    pram_set_acl st .ACL_TYPE_DEFAULT (some a) = (-EACCES, st) ∧
    pram_set_acl st .ACL_TYPE_DEFAULT none = (0, st) := by
  constructor <;> simp [pram_set_acl, h1, h2, h3]

/-- C6 witness: on the base regular-file state, setting a non-absent default
ACL is -EACCES with no effect, and setting Absent is a no-op success. -/
theorem C6_witness :
    pram_set_acl baseState .ACL_TYPE_DEFAULT (some [⟨ACL_USER_OBJ, 6, 0⟩]) =
      (-EACCES, baseState) ∧
    pram_set_acl baseState .ACL_TYPE_DEFAULT none = (0, baseState) :=
  C6_default_on_nondirectory baseState _ rfl rfl rfl

/-- C7: every set on a symlink inode returns -EOPNOTSUPP with the state
untouched, for both ACL types and every ACL value, even when the feature flag
is disabled: the symlink check is the first test of pram_set_acl. -/
theorem C7_symlink_set_rejected (st : FsState) (ty : AclType) (acl : Option PosixAcl)
    (h : S_ISLNK st.inode.i_mode = true) :
    pram_set_acl st ty acl = (-EOPNOTSUPP, st) := by
  simp [pram_set_acl, h]

/-- A symlink inode (mode 0xA1FF) on a filesystem with ACL support disabled. -/
def symlinkDisabledState : FsState :=
  { aclEnabled := false, now := 0,
    inode := { i_mode := 0xA1FF, i_ctime := 0, dirty := false },
    xattrAccess := none, xattrDefault := none,
    cacheAccess := .notCached, cacheDefault := .notCached }

/-- C7 witness: setting an access ACL on the symlink state is -EOPNOTSUPP. -/
theorem C7_witness :
    pram_set_acl symlinkDisabledState .ACL_TYPE_ACCESS (some [⟨ACL_USER_OBJ, 6, 0⟩]) =
      (-EOPNOTSUPP, symlinkDisabledState) :=
  C7_symlink_set_rejected symlinkDisabledState _ _ rfl

/-- C8 counterexample: on a symlink inode with ACL support disabled, a
mutation request returns -EOPNOTSUPP and not the success 0 the claim
promises for every inode type: the symlink check precedes the feature check. -/
theorem C8_symlink_beats_disabled :
    symlinkDisabledState.aclEnabled = false ∧
    pram_set_acl symlinkDisabledState .ACL_TYPE_ACCESS none =
      (-EOPNOTSUPP, symlinkDisabledState) ∧
    (-EOPNOTSUPP : Int) ≠ 0 :=
  ⟨rfl, rfl, by decide⟩

/-- C8 (amended): on every non-symlink inode, when ACL support is disabled a
mutation request through pram_set_acl returns success 0 with no effect,
whatever the type and ACL value. -/
theorem C8_disabled_noop (st : FsState) (ty : AclType) (acl : Option PosixAcl)
    (h1 : S_ISLNK st.inode.i_mode = false)
    (h2 : st.aclEnabled = false) :
    pram_set_acl st ty acl = (0, st) := by
  simp [pram_set_acl, h1, h2]

/-- C8 witness: on the disabled regular-file state, setting a default ACL is
a silent no-op success. -/
theorem C8_witness :
    pram_set_acl { baseState with aclEnabled := false } .ACL_TYPE_DEFAULT
        (some [⟨ACL_USER_OBJ, 6, 0⟩]) =
      (0, { baseState with aclEnabled := false }) :=
  C8_disabled_noop _ _ _ rfl rfl

/-- C9: with ACL support enabled, a get for an inode and type whose cache
slot is cold and whose attribute-store slot reports not-found returns Absent
after one store probe, caches the Absent outcome, and a second get for the
same inode and type returns Absent from the cache with zero store calls and
no state change. -/
theorem C9_absent_then_cached (st : FsState) (ty : AclType)
    (h1 : st.aclEnabled = true)
    (h2 : cacheOf st ty = .notCached)
    (h3 : xattrOf st ty = none) :
    (pram_get_acl st ty).acl = .ok none ∧
    (pram_get_acl st ty).storeCalls = 1 ∧
    cacheOf (pram_get_acl st ty).st ty = .cached none ∧
    pram_get_acl (pram_get_acl st ty).st ty =
      ⟨.ok none, (pram_get_acl st ty).st, 0⟩ := by
  have hstep : pram_get_acl st ty = ⟨.ok none, setCacheSt st ty (.cached none), 1⟩ := by
    simp [pram_get_acl, h1, h2, h3]
  rw [hstep]
  refine ⟨rfl, rfl, cacheOf_setCacheSt st ty _, ?_⟩
  simp [pram_get_acl, aclEnabled_setCacheSt, h1, cacheOf_setCacheSt]

/-- C9 witness: on the base state (enabled, cold cache, no stored access
attribute) the first get is Absent and the second is served by the cache with
zero store calls. -/
theorem C9_witness :
    (pram_get_acl baseState .ACL_TYPE_ACCESS).acl = .ok none ∧
    pram_get_acl (pram_get_acl baseState .ACL_TYPE_ACCESS).st .ACL_TYPE_ACCESS =
      ⟨.ok none, (pram_get_acl baseState .ACL_TYPE_ACCESS).st, 0⟩ :=
  ⟨(C9_absent_then_cached baseState .ACL_TYPE_ACCESS rfl rfl rfl).1,
   (C9_absent_then_cached baseState .ACL_TYPE_ACCESS rfl rfl rfl).2.2.2⟩

/-- The base state with the feature flag turned off, for the handler claims. -/
def disabledState : FsState := { baseState with aclEnabled := false }

/-- C10 counterexample: with ACL support disabled, a handler set call with a
non-empty attribute name returns -EINVAL, not the -EOPNOTSUPP the claim
promises for every call: the name check precedes the feature check. -/
theorem C10_nonempty_name_einval :
    disabledState.aclEnabled = false ∧
    pram_xattr_set_acl disabledState true "x" none .ACL_TYPE_ACCESS =
      (-EINVAL, disabledState) ∧
    (-EINVAL : Int) ≠ -EOPNOTSUPP := by
  refine ⟨rfl, ?_, by decide⟩
  simp [pram_xattr_set_acl]

/-- C10 (amended): with ACL support disabled the handler set path never
returns -EPERM whatever the name, value, type or caller identity; a call with
the empty attribute name (the only form the handler accepts) returns
-EOPNOTSUPP, and a call with a non-empty name returns -EINVAL from the
earlier name check.  In particular the feature check precedes the
ownership check. -/
theorem C10_disabled_precedes_ownership (st : FsState) (isOwner : Bool) (name : String)
    (value : Option (Except Int (Option PosixAcl))) (ty : AclType)
    (h : st.aclEnabled = false) :
    (pram_xattr_set_acl st isOwner name value ty).1 ≠ -EPERM ∧
    (name = "" → pram_xattr_set_acl st isOwner name value ty = (-EOPNOTSUPP, st)) ∧
    (name ≠ "" → pram_xattr_set_acl st isOwner name value ty = (-EINVAL, st)) := by
  by_cases hn : name = ""
  · have he : pram_xattr_set_acl st isOwner name value ty = (-EOPNOTSUPP, st) := by
      simp [pram_xattr_set_acl, hn, h]
    rw [he]
    exact ⟨by simp [EOPNOTSUPP, EPERM], fun _ => rfl, fun hc => absurd hn hc⟩
  · have he : pram_xattr_set_acl st isOwner name value ty = (-EINVAL, st) := by
      simp [pram_xattr_set_acl, hn]
    rw [he]
    exact ⟨by simp [EINVAL, EPERM], fun hc => absurd hc hn, fun _ => rfl⟩

/-- C10 witness: on the disabled state, a handler set call with the empty
name from a non-owner caller is -EOPNOTSUPP, not -EPERM. -/
theorem C10_witness :
    pram_xattr_set_acl disabledState false "" none .ACL_TYPE_DEFAULT =
      (-EOPNOTSUPP, disabledState) :=
  (C10_disabled_precedes_ownership disabledState false "" none .ACL_TYPE_DEFAULT rfl).2.1 rfl

end PramAcl
